import Mathlib

/-!
Shallow embedding of the `javaplugins` SSH-client scaffold, covering the
crypto utility (`generateKeyFromPassword`, `encrypt`, `decrypt`), the
localStorage profile store (`getProfiles`, `saveProfiles`, `addProfile`,
`updateProfile`, `deleteProfile`) and the `connect` helper of
`sshService.ts`, together with theorems settling the frozen claims.

Bytes are modelled as `Fin 256`; text strings that only flow through the
code opaquely stay `String`; the plaintext handed to the cipher is modelled
as its UTF-8 byte sequence (`List Byte`). Node's `crypto` module
(`pbkdf2Sync`, `createCipheriv`/`createDecipheriv`, `randomBytes`,
`randomUUID`) is an external library, so its primitives enter the embedding
as explicit parameters: the random IV and the generated profile id become
arguments, and the AES-256-CBC transform is an abstract `CipherSuite`
whose inverse law is a hypothesis where a theorem needs it.
-/

namespace SshClient

/-- A byte, as produced by Node `Buffer`s. -/
abbrev Byte := Fin 256

/-- One lowercase hex digit, as emitted by `Buffer.toString('hex')`. -/
def hexChar (n : Fin 16) : Char :=
  if n.val < 10 then Char.ofNat (48 + n.val) else Char.ofNat (87 + n.val)

/-- Value of a hex digit character, as accepted by `Buffer.from(s, 'hex')`
(both lowercase and uppercase digits decode). -/
def hexDigitVal (c : Char) : Option (Fin 16) :=
  if h : 48 ≤ c.toNat ∧ c.toNat ≤ 57 then some ⟨c.toNat - 48, by omega⟩
  else if h : 97 ≤ c.toNat ∧ c.toNat ≤ 102 then some ⟨c.toNat - 87, by omega⟩
  else if h : 65 ≤ c.toNat ∧ c.toNat ≤ 70 then some ⟨c.toNat - 55, by omega⟩
  else none

/-- `Buffer.toString('hex')`: each byte becomes two lowercase hex digits. -/
def hexEncode : List Byte → List Char
  | [] => []
  | b :: bs =>
      hexChar ⟨b.val / 16, by omega⟩ :: hexChar ⟨b.val % 16, by omega⟩ :: hexEncode bs

/-- `Buffer.from(s, 'hex')`: decodes pairs of hex digits greedily and, as
Node does, truncates at the first pair that is not two valid hex digits
(an odd trailing digit is likewise dropped). -/
def hexDecode : List Char → List Byte
  | c1 :: c2 :: rest =>
      match hexDigitVal c1, hexDigitVal c2 with
      | some hi, some lo => (⟨16 * hi.val + lo.val, by omega⟩ : Byte) :: hexDecode rest
      | _, _ => []
  | _ => []

/-- `String.prototype.split(':')`: the segments between colons, empty
segments included; a string with no colon yields one segment. -/
def splitOnColon : List Char → List (List Char)
  | [] => [[]]
  | c :: rest =>
      if c = ':' then [] :: splitOnColon rest
      else
        match splitOnColon rest with
        | [] => [[c]]
        | s :: ss => (c :: s) :: ss

/-- The errors thrown by the crypto utility, one constructor per distinct
`throw new Error(...)` site. `invalidKeyLength` is
`'Secret key must be 32 bytes long.'`; `invalidDataFormat` is
`'Invalid encrypted data format. Expected "iv:encrypted_data".'`;
`invalidIVLength` is `'Invalid IV length. Expected 16 bytes.'`;
`decryptionFailed` is `'Decryption process failed. Check key or data
integrity.'`; `encryptionFailed` is `'Encryption process failed.'`. -/
inductive CryptoError where
  | invalidKeyLength
  | invalidDataFormat
  | invalidIVLength
  | decryptionFailed
  | encryptionFailed
deriving DecidableEq, Repr

/-- The spec's `MalformedEnvelope` taxon covers the two structural
envelope rejections of `decrypt`: wrong delimiter/segment count and
wrong IV length. -/
def MalformedEnvelope (e : CryptoError) : Prop :=
  e = CryptoError.invalidDataFormat ∨ e = CryptoError.invalidIVLength

instance (e : CryptoError) : Decidable (MalformedEnvelope e) := by
  unfold MalformedEnvelope; infer_instance

/-- The external `aes-256-cbc` primitive behind
`crypto.createCipheriv`/`createDecipheriv`: a keyed, IV-indexed transform
from plaintext bytes to ciphertext bytes and its fallible inverse
(`decipher.final()` throws on bad padding, modelled as `none`). -/
structure CipherSuite where
  enc : List Byte → List Byte → List Byte → List Byte
  dec : List Byte → List Byte → List Byte → Option (List Byte)

/-- `encrypt(text, secretKey)` of the crypto utility. The fresh random IV
drawn by `crypto.randomBytes(IV_LENGTH)` is the explicit `iv` argument;
`text` is the plaintext's UTF-8 byte sequence. Returns the envelope
`iv_hex ++ ":" ++ encrypted_hex` as a character list. -/
def encrypt (cs : CipherSuite) (text : List Byte) (secretKey : List Byte)
    (iv : List Byte) : Except CryptoError (List Char) :=
  if secretKey.length ≠ 32 then .error .invalidKeyLength
  else .ok (hexEncode iv ++ ':' :: hexEncode (cs.enc secretKey iv text))

/-- `decrypt(encryptedDataWithIv, secretKey)` of the crypto utility:
checks the key length, splits on `':'` (`parts.length !== 2` is the
`[p0, p1]` pattern), hex-decodes IV and ciphertext, checks the IV length,
and runs the decipher, any cryptographic failure of which surfaces as
`decryptionFailed` (the two structural errors are rethrown as themselves
by the `catch` block). -/
def decrypt (cs : CipherSuite) (encryptedDataWithIv : List Char)
    (secretKey : List Byte) : Except CryptoError (List Byte) :=
  if secretKey.length ≠ 32 then .error .invalidKeyLength
  else
    match splitOnColon encryptedDataWithIv with
    | [p0, p1] =>
        let iv := hexDecode p0
        let encryptedText := hexDecode p1
        if iv.length ≠ 16 then .error .invalidIVLength
        else
          match cs.dec secretKey iv encryptedText with
          | some m => .ok m
          | none => .error .decryptionFailed
    | _ => .error .invalidDataFormat

/-- `generateKeyFromPassword(password, salt)`: rejects an empty password
or salt (JS falsiness of `''`), otherwise calls the external
`crypto.pbkdf2Sync(password, salt, 100000, 32, 'sha512')`, passed in here
as the `kdf` parameter. -/
def generateKeyFromPassword (kdf : String → String → Nat → Nat → String → List Byte)
    (password salt : String) : Except String (List Byte) :=
  if password = "" ∨ salt = "" then
    .error "Password and salt are required to generate a key."
  else .ok (kdf password salt 100000 32 "sha512")

/-- `SSHConnectionParams` of `types/ssh.ts`: host, port, username and an
optional credential triple. -/
structure SSHConnectionParams where
  host : String
  port : Nat
  username : String
  password : Option String
  privateKey : Option String
  passphrase : Option String
deriving DecidableEq, Repr

/-- `ConnectionProfile` of `types/ssh.ts`: connection parameters plus the
unique `id` and the user-facing `name`. -/
structure ConnectionProfile where
  id : String
  name : String
  host : String
  port : Nat
  username : String
  password : Option String
  privateKey : Option String
  passphrase : Option String
deriving DecidableEq, Repr

/-- `Omit<ConnectionProfile, 'id'>`: the argument of `addProfile`. -/
structure ProfileData where
  name : String
  host : String
  port : Nat
  username : String
  password : Option String
  privateKey : Option String
  passphrase : Option String
deriving DecidableEq, Repr

/-- What `localStorage.getItem(PROFILES_STORAGE_KEY)` followed by
`JSON.parse` can observably yield: the slot is missing, the JSON parse
throws, the parse yields a non-array value, or it yields an array of
profiles. -/
inductive RawStored where
  | missing
  | corrupt
  | notArray
  | profiles (ps : List ConnectionProfile)
deriving DecidableEq

/-- `getProfiles()`: missing data yields `[]`, a thrown parse error is
caught, logged and degraded to `[]`, a non-array parse yields `[]`, and
an array is returned as is. -/
def getProfiles : RawStored → List ConnectionProfile
  | .missing => []
  | .corrupt => []
  | .notArray => []
  | .profiles ps => ps

/-- Whether the external `localStorage.setItem` call succeeds or throws
(e.g. quota exceeded). -/
inductive StoreWriteOutcome where
  | ok
  | throws
deriving DecidableEq

/-- The observable effect of `saveProfiles(profiles)`: what the caller
gets back (`callerError = none` means the function returns normally),
what was written, and what went to `console.error`. -/
structure SaveEffect where
  callerError : Option String
  stored : Option (List ConnectionProfile)
  logged : List String
deriving DecidableEq

/-- `saveProfiles(profiles)`: `localStorage.setItem` inside a
`try`/`catch` whose handler logs the error and returns normally, so the
caller sees a normal return in both branches. -/
def saveProfiles (outcome : StoreWriteOutcome) (profiles : List ConnectionProfile) :
    SaveEffect :=
  match outcome with
  | .ok => { callerError := none, stored := some profiles, logged := [] }
  | .throws =>
      { callerError := none, stored := none
        logged := ["Error saving profiles to localStorage:"] }

/-- `Array.prototype.findIndex` specialised to the profile-id predicate
used by `updateProfile` (`p => p.id === updatedProfile.id`); `none`
models the `-1` result. -/
def findIndexById (targetId : String) : List ConnectionProfile → Option Nat
  | [] => none
  | p :: ps =>
      if p.id = targetId then some 0
      else (findIndexById targetId ps).map (· + 1)

/-- `addProfile(profileData)` acting on the stored collection: spreads
`profileData`, attaches the id drawn from the external `generateId()`
(`crypto.randomUUID()` or the time-and-random fallback), pushes the new
profile and saves. Returns the new profile and the saved collection. -/
def addProfile (generatedId : String) (profileData : ProfileData)
    (profiles : List ConnectionProfile) :
    ConnectionProfile × List ConnectionProfile :=
  let newProfile : ConnectionProfile :=
    { id := generatedId, name := profileData.name, host := profileData.host
      port := profileData.port, username := profileData.username
      password := profileData.password, privateKey := profileData.privateKey
      passphrase := profileData.passphrase }
  (newProfile, profiles ++ [newProfile])

/-- `updateProfile(updatedProfile)` acting on the stored collection:
finds the first profile with the same id, overwrites that slot and saves,
returning `true`; returns `false` and leaves the collection alone when no
profile matches (`findIndex` returned `-1`). -/
def updateProfile (updatedProfile : ConnectionProfile)
    (profiles : List ConnectionProfile) : Bool × List ConnectionProfile :=
  match findIndexById updatedProfile.id profiles with
  | some profileIndex => (true, profiles.set profileIndex updatedProfile)
  | none => (false, profiles)

/-- `deleteProfile(profileId)` acting on the stored collection: filters
out every profile with that id; if the filtered collection is shorter it
is saved and `true` is returned, otherwise `false` is returned and
nothing is saved. -/
def deleteProfile (profileId : String)
    (profiles : List ConnectionProfile) : Bool × List ConnectionProfile :=
  let updatedProfiles := profiles.filter (fun p => p.id ≠ profileId)
  if updatedProfiles.length < profiles.length then (true, updatedProfiles)
  else (false, profiles)

/-- The connection config `connect` hands to `ssh2`'s `conn.connect`:
built unconditionally from the params, with `privateKey` passed through
`Buffer.from` when present. -/
structure SSHConfig where
  host : String
  port : Nat
  username : String
  password : Option String
  privateKey : Option (List Byte)
  passphrase : Option String
deriving DecidableEq, Repr

/-- The first externally observable action of `connect(params)`.
`attemptConnect` is the call `conn.connect(config)`, which initiates
network I/O; `failValidation` is the vocabulary needed to state the
spec's fail-fast `ValidationError` contract — the source never produces
it. -/
inductive ConnectAction where
  | attemptConnect (config : SSHConfig)
  | failValidation (message : String)
deriving DecidableEq

/-- The synchronous phase of `connect(params)` in `sshService.ts`: it
creates the client, registers the event handlers, builds the config and
calls `conn.connect(config)` — with no validation of `params` on any
path. `utf8Bytes` stands for `Buffer.from(privateKey)`. -/
def connect (utf8Bytes : String → List Byte) (params : SSHConnectionParams) :
    ConnectAction :=
  ConnectAction.attemptConnect
    { host := params.host, port := params.port, username := params.username
      password := params.password
      privateKey := params.privateKey.map utf8Bytes
      passphrase := params.passphrase }

/-! ### Helper lemmas about the hex codec and the envelope delimiter -/

/-- Decoding a hex digit character produced by `hexChar` recovers the
digit. -/
theorem hexDigitVal_hexChar : ∀ n : Fin 16, hexDigitVal (hexChar n) = some n := by
  decide

/-- `hexChar` never emits the envelope delimiter. -/
theorem hexChar_ne_colon : ∀ n : Fin 16, hexChar n ≠ ':' := by
  decide

/-- The delimiter never occurs inside a hex-encoded byte string. -/
theorem colon_not_mem_hexEncode (bs : List Byte) : ':' ∉ hexEncode bs := by
  induction bs with
  | nil => simp [hexEncode]
  | cons b bs ih =>
      simp only [hexEncode, List.mem_cons, not_or]
      exact ⟨fun h => hexChar_ne_colon _ h.symm, fun h => hexChar_ne_colon _ h.symm, ih⟩

/-- Hex decoding inverts hex encoding. -/
theorem hexDecode_hexEncode (bs : List Byte) : hexDecode (hexEncode bs) = bs := by
  induction bs with
  | nil => simp [hexEncode, hexDecode]
  | cons b bs ih =>
      simp only [hexEncode, hexDecode, hexDigitVal_hexChar, ih]
      congr 1
      apply Fin.ext
      simp only []
      omega

/-- `hexEncode` is injective. -/
theorem hexEncode_injective {bs cs : List Byte} (h : hexEncode bs = hexEncode cs) :
    bs = cs := by
  have := hexDecode_hexEncode bs
  rw [h, hexDecode_hexEncode] at this
  exact this.symm

/-- A delimiter-free string splits into itself alone. -/
theorem splitOnColon_of_not_mem {ys : List Char} (hy : ':' ∉ ys) :
    splitOnColon ys = [ys] := by
  induction ys with
  | nil => rfl
  | cons c rest ih =>
      simp only [List.mem_cons, not_or] at hy
      have hc : ¬c = ':' := fun h => hy.1 h.symm
      simp only [splitOnColon, if_neg hc, ih hy.2]

/-- Splitting `xs ++ ':' :: ys` with `xs` delimiter-free peels off `xs`
as the first segment. -/
theorem splitOnColon_append {xs : List Char} (ys : List Char) (hx : ':' ∉ xs) :
    splitOnColon (xs ++ ':' :: ys) = xs :: splitOnColon ys := by
  induction xs with
  | nil => simp [splitOnColon]
  | cons c rest ih =>
      simp only [List.mem_cons, not_or] at hx
      have hc : ¬c = ':' := fun h => hx.1 h.symm
      simp only [List.cons_append, splitOnColon, List.append_eq, if_neg hc, ih hx.2]

/-- An envelope built from two delimiter-free segments splits into
exactly those two segments. -/
theorem splitOnColon_two {xs ys : List Char} (hx : ':' ∉ xs) (hy : ':' ∉ ys) :
    splitOnColon (xs ++ ':' :: ys) = [xs, ys] := by
  rw [splitOnColon_append ys hx, splitOnColon_of_not_mem hy]

/-! ### Concrete instances used by the witnesses -/

/-- A cipher suite satisfying the inverse contract of the external
primitive, used to instantiate the abstract `CipherSuite` in witnesses. -/
def idCipherSuite : CipherSuite :=
  { enc := fun _ _ m => m, dec := fun _ _ c => some c }

/-- A 32-byte key for witnesses. -/
def demoKey : List Byte := List.replicate 32 0

/-- A 16-byte IV for witnesses. -/
def demoIV : List Byte := List.replicate 16 0

/-- A second, distinct 16-byte IV. -/
def demoIV2 : List Byte := 1 :: List.replicate 15 0

/-- A two-byte plaintext for witnesses. -/
def demoText : List Byte := [104, 105]

/-- The envelope `encrypt` produces from `demoText` under
`idCipherSuite` with `demoIV`. -/
def demoEnvelope : List Char := hexEncode demoIV ++ ':' :: hexEncode demoText

/-- The envelope produced with `demoIV2` instead. -/
def demoEnvelope2 : List Char := hexEncode demoIV2 ++ ':' :: hexEncode demoText

/-- A delimiter-free, hence malformed, envelope. -/
def demoBadEnvelope : List Char := ['a', 'b']

/-- A KDF satisfying the `pbkdf2Sync` length contract, for witnesses. -/
def demoKdf : String → String → Nat → Nat → String → List Byte :=
  fun _ _ _ keylen _ => List.replicate keylen 0

/-! ### Claims about the crypto utility -/

/-- C1: for every plaintext and every 32-byte key, decrypting the
envelope produced by `encrypt` with the same key returns the original
plaintext. The random IV is the explicit `iv` argument (any 16-byte
draw), and the external AES-256-CBC primitive is any `CipherSuite`
satisfying its inverse contract `hinv`. -/
theorem encrypt_decrypt_roundtrip (cs : CipherSuite)
    (hinv : ∀ key iv m, cs.dec key iv (cs.enc key iv m) = some m)
    (text secretKey iv : List Byte) (hkey : secretKey.length = 32)
    (hiv : iv.length = 16) (envelope : List Char)
    (henc : encrypt cs text secretKey iv = .ok envelope) :
    decrypt cs envelope secretKey = .ok text := by
  have hk : ¬secretKey.length ≠ 32 := by omega
  simp only [encrypt, if_neg hk, Except.ok.injEq] at henc
  simp only [decrypt, if_neg hk, ← henc,
    splitOnColon_two (colon_not_mem_hexEncode iv) (colon_not_mem_hexEncode _),
    hexDecode_hexEncode, hiv, hinv]
  simp

/-- Witness for C1: the round trip at a concrete plaintext, key and IV. -/
theorem encrypt_decrypt_roundtrip_witness :
    demoKey.length = 32 ∧ demoIV.length = 16 ∧
    encrypt idCipherSuite demoText demoKey demoIV = .ok demoEnvelope ∧
    decrypt idCipherSuite demoEnvelope demoKey = .ok demoText :=
  ⟨by decide, by decide, by rfl,
    encrypt_decrypt_roundtrip idCipherSuite (fun _ _ _ => rfl) demoText demoKey
      demoIV (by decide) (by decide) demoEnvelope (by rfl)⟩

/-- C3: for every input and every key whose length is not 32 bytes, both
`encrypt` and `decrypt` fail with the invalid-key-length error. -/
theorem encrypt_decrypt_reject_bad_key (cs : CipherSuite) (text iv : List Byte)
    (envelope : List Char) (secretKey : List Byte)
    (hkey : secretKey.length ≠ 32) :
    encrypt cs text secretKey iv = .error CryptoError.invalidKeyLength ∧
    decrypt cs envelope secretKey = .error CryptoError.invalidKeyLength := by
  exact ⟨by simp [encrypt, if_pos hkey], by simp [decrypt, if_pos hkey]⟩

/-- Witness for C3: a 0-byte key is rejected by both operations. -/
theorem encrypt_decrypt_reject_bad_key_witness :
    ([] : List Byte).length ≠ 32 ∧
    (encrypt idCipherSuite demoText [] demoIV = .error CryptoError.invalidKeyLength ∧
     decrypt idCipherSuite demoEnvelope [] = .error CryptoError.invalidKeyLength) :=
  ⟨by decide,
    encrypt_decrypt_reject_bad_key idCipherSuite demoText demoIV demoEnvelope []
      (by decide)⟩

/-- C4: for every 32-byte key, `decrypt` fails with one of the two
malformed-envelope errors whenever the envelope does not split into
exactly two segments on `':'`, or the hex-decoded first (IV) segment is
not exactly 16 bytes. -/
theorem decrypt_malformed_envelope (cs : CipherSuite) (secretKey : List Byte)
    (hkey : secretKey.length = 32) (envelope : List Char)
    (h : (splitOnColon envelope).length ≠ 2 ∨
      (hexDecode ((splitOnColon envelope).headD [])).length ≠ 16) :
    ∃ e, decrypt cs envelope secretKey = .error e ∧ MalformedEnvelope e := by
  have hk : ¬secretKey.length ≠ 32 := by omega
  cases hsplit : splitOnColon envelope with
  | nil =>
      exact ⟨.invalidDataFormat, by simp [decrypt, if_neg hk, hsplit], Or.inl rfl⟩
  | cons p0 rest =>
      cases rest with
      | nil =>
          exact ⟨.invalidDataFormat, by simp [decrypt, if_neg hk, hsplit], Or.inl rfl⟩
      | cons p1 rest2 =>
          cases rest2 with
          | nil =>
              rw [hsplit] at h
              have hlen : (hexDecode p0).length ≠ 16 := by
                rcases h with h | h
                · simp at h
                · simpa using h
              refine ⟨.invalidIVLength, ?_, Or.inr rfl⟩
              simp [decrypt, if_neg hk, hsplit, if_pos hlen]
          | cons p2 rest3 =>
              exact ⟨.invalidDataFormat, by simp [decrypt, if_neg hk, hsplit],
                Or.inl rfl⟩

/-- Witness for C4: a delimiter-free envelope is rejected as malformed. -/
theorem decrypt_malformed_envelope_witness :
    demoKey.length = 32 ∧
    ((splitOnColon demoBadEnvelope).length ≠ 2 ∨
      (hexDecode ((splitOnColon demoBadEnvelope).headD [])).length ≠ 16) ∧
    ∃ e, decrypt idCipherSuite demoBadEnvelope demoKey = .error e ∧
      MalformedEnvelope e :=
  ⟨by decide, by decide,
    decrypt_malformed_envelope idCipherSuite demoKey (by decide) demoBadEnvelope
      (by decide)⟩

/-- C5: for every non-empty passphrase and salt, `generateKeyFromPassword`
is deterministic (the embedding of `pbkdf2Sync` is a function, so two
calls with identical inputs are the same value) and yields a 32-byte key,
given the external KDF's contract that its output length is the requested
`keylen`. -/
theorem generateKeyFromPassword_deterministic_32
    (kdf : String → String → Nat → Nat → String → List Byte)
    (hkdf : ∀ password salt iterations keylen digest,
      (kdf password salt iterations keylen digest).length = keylen)
    (password salt : String) (hp : password ≠ "") (hs : salt ≠ "") :
    generateKeyFromPassword kdf password salt =
      generateKeyFromPassword kdf password salt ∧
    ∃ key, generateKeyFromPassword kdf password salt = .ok key ∧
      key.length = 32 := by
  refine ⟨rfl, kdf password salt 100000 32 "sha512", ?_, hkdf _ _ _ _ _⟩
  simp [generateKeyFromPassword, hp, hs]

/-- Witness for C5 at the spec's own example inputs. -/
theorem generateKeyFromPassword_deterministic_32_witness :
    ("hunter2" : String) ≠ "" ∧ ("a1b2" : String) ≠ "" ∧
    (generateKeyFromPassword demoKdf "hunter2" "a1b2" =
        generateKeyFromPassword demoKdf "hunter2" "a1b2" ∧
      ∃ key, generateKeyFromPassword demoKdf "hunter2" "a1b2" = .ok key ∧
        key.length = 32) :=
  ⟨by decide, by decide,
    generateKeyFromPassword_deterministic_32 demoKdf
      (fun _ _ _ _ _ => by simp [demoKdf]) "hunter2" "a1b2" (by decide) (by decide)⟩

/-- C6: for every 32-byte key and plaintext, two `encrypt` calls that
draw distinct fresh IVs produce different envelopes: the envelope starts
with the hex of the IV, and hex encoding is injective. -/
theorem encrypt_iv_freshness (cs : CipherSuite) (text secretKey iv1 iv2 : List Byte)
    (hkey : secretKey.length = 32) (h1 : iv1.length = 16) (h2 : iv2.length = 16)
    (hne : iv1 ≠ iv2) (env1 env2 : List Char)
    (he1 : encrypt cs text secretKey iv1 = .ok env1)
    (he2 : encrypt cs text secretKey iv2 = .ok env2) :
    env1 ≠ env2 := by
  have hk : ¬secretKey.length ≠ 32 := by omega
  simp only [encrypt, if_neg hk, Except.ok.injEq] at he1 he2
  intro hcontra
  apply hne
  apply hexEncode_injective
  have hsplit : splitOnColon env1 = splitOnColon env2 := by rw [hcontra]
  rw [← he1, ← he2,
    splitOnColon_two (colon_not_mem_hexEncode _) (colon_not_mem_hexEncode _),
    splitOnColon_two (colon_not_mem_hexEncode _) (colon_not_mem_hexEncode _)]
    at hsplit
  simp only [List.cons.injEq, and_true] at hsplit
  exact hsplit.1

/-- Witness for C6 at two concrete distinct IVs. -/
theorem encrypt_iv_freshness_witness :
    demoKey.length = 32 ∧ demoIV.length = 16 ∧ demoIV2.length = 16 ∧
    demoIV ≠ demoIV2 ∧
    encrypt idCipherSuite demoText demoKey demoIV = .ok demoEnvelope ∧
    encrypt idCipherSuite demoText demoKey demoIV2 = .ok demoEnvelope2 ∧
    demoEnvelope ≠ demoEnvelope2 :=
  ⟨by decide, by decide, by decide, by decide, by rfl, by rfl,
    encrypt_iv_freshness idCipherSuite demoText demoKey demoIV demoIV2
      (by decide) (by decide) (by decide) (by decide) demoEnvelope demoEnvelope2
      (by rfl) (by rfl)⟩

/-! ### Helper lemmas about the profile store -/

/-- `findIndex` returns `-1` (here `none`) when no profile has the
target id. -/
theorem findIndexById_eq_none {targetId : String} {profiles : List ConnectionProfile}
    (h : ∀ p ∈ profiles, p.id ≠ targetId) :
    findIndexById targetId profiles = none := by
  induction profiles with
  | nil => rfl
  | cons p ps ih =>
      have hp : ¬p.id = targetId := h p (List.mem_cons_self p ps)
      simp only [findIndexById, if_neg hp,
        ih (fun q hq => h q (List.mem_cons_of_mem p hq)), Option.map_none']

/-- When some profile has the target id, `findIndex` returns an index in
range whose profile has that id. -/
theorem findIndexById_eq_some {targetId : String} {profiles : List ConnectionProfile}
    (h : ∃ p ∈ profiles, p.id = targetId) :
    ∃ i, findIndexById targetId profiles = some i ∧ i < profiles.length ∧
      ∃ p0, profiles[i]? = some p0 ∧ p0.id = targetId := by
  induction profiles with
  | nil => simp at h
  | cons p ps ih =>
      by_cases hp : p.id = targetId
      · exact ⟨0, by simp [findIndexById, hp], by simp, p, by simp, hp⟩
      · have hps : ∃ q ∈ ps, q.id = targetId := by
          rcases h with ⟨q, hq, hqid⟩
          rcases List.mem_cons.mp hq with rfl | hq
          · exact absurd hqid hp
          · exact ⟨q, hq, hqid⟩
        rcases ih hps with ⟨i, hfind, hlt, p0, hget, hid⟩
        exact ⟨i + 1, by simp [findIndexById, if_neg hp, hfind], by simpa using hlt,
          p0, by simpa using hget, hid⟩

/-- Demo profiles for the store witnesses. -/
def demoProfileA : ConnectionProfile :=
  { id := "a", name := "alpha", host := "h1", port := 22, username := "u1"
    password := some "pw", privateKey := none, passphrase := none }

/-- A second demo profile. -/
def demoProfileB : ConnectionProfile :=
  { id := "b", name := "beta", host := "h2", port := 2222, username := "u2"
    password := none, privateKey := some "KEY", passphrase := some "pp" }

/-- A replacement for `demoProfileB`, with the same id. -/
def demoProfileB' : ConnectionProfile :=
  { id := "b", name := "beta2", host := "h3", port := 22, username := "u3"
    password := some "pw2", privateKey := none, passphrase := none }

/-- A profile whose id matches nothing in the demo store. -/
def demoProfileC : ConnectionProfile :=
  { id := "c", name := "gamma", host := "h4", port := 22, username := "u4"
    password := none, privateKey := none, passphrase := none }

/-- The demo stored collection. -/
def demoStore : List ConnectionProfile := [demoProfileA, demoProfileB]

/-- Profile data (no id) for the `addProfile` witness. -/
def demoProfileData : ProfileData :=
  { name := "delta", host := "h5", port := 22, username := "u5"
    password := some "pw5", privateKey := none, passphrase := none }

/-! ### Claims about the profile store -/

/-- C7: for every stored collection and every id matching no stored
record, `updateProfile` returns `false` and leaves the collection
unchanged, and `deleteProfile` returns `false` and leaves the collection
unchanged. -/
theorem update_delete_missing_id_unchanged (profiles : List ConnectionProfile)
    (updatedProfile : ConnectionProfile) (profileId : String)
    (hu : ∀ p ∈ profiles, p.id ≠ updatedProfile.id)
    (hd : ∀ p ∈ profiles, p.id ≠ profileId) :
    updateProfile updatedProfile profiles = (false, profiles) ∧
    deleteProfile profileId profiles = (false, profiles) := by
  constructor
  · simp [updateProfile, findIndexById_eq_none hu]
  · have hfilter : profiles.filter (fun p => !decide (p.id = profileId)) = profiles :=
      List.filter_eq_self.mpr (fun p hp => by simpa using hd p hp)
    simp [deleteProfile, hfilter]

/-- Witness for C7: the id `"c"` matches nothing in `demoStore`. -/
theorem update_delete_missing_id_unchanged_witness :
    (∀ p ∈ demoStore, p.id ≠ demoProfileC.id) ∧
    (∀ p ∈ demoStore, p.id ≠ "c") ∧
    (updateProfile demoProfileC demoStore = (false, demoStore) ∧
     deleteProfile "c" demoStore = (false, demoStore)) :=
  ⟨by decide, by decide,
    update_delete_missing_id_unchanged demoStore demoProfileC "c" (by decide)
      (by decide)⟩

/-- C8: `addProfile` followed by `getProfiles` yields the prior
collection plus exactly one new record; when the id drawn from the
external `generateId()` is non-empty and unseen in the collection, the
new record's id is non-empty and distinct from every stored id. -/
theorem addProfile_appends_fresh_record (profiles : List ConnectionProfile)
    (profileData : ProfileData) (generatedId : String)
    (hne : generatedId ≠ "") (hfresh : ∀ p ∈ profiles, p.id ≠ generatedId) :
    (addProfile generatedId profileData profiles).2 =
      profiles ++ [(addProfile generatedId profileData profiles).1] ∧
    (addProfile generatedId profileData profiles).1.id = generatedId ∧
    (addProfile generatedId profileData profiles).1.id ≠ "" ∧
    ∀ p ∈ profiles, p.id ≠ (addProfile generatedId profileData profiles).1.id :=
  ⟨rfl, rfl, hne, hfresh⟩

/-- Witness for C8 at a fresh concrete id. -/
theorem addProfile_appends_fresh_record_witness :
    ("d" : String) ≠ "" ∧ (∀ p ∈ demoStore, p.id ≠ "d") ∧
    ((addProfile "d" demoProfileData demoStore).2 =
        demoStore ++ [(addProfile "d" demoProfileData demoStore).1] ∧
      (addProfile "d" demoProfileData demoStore).1.id = "d" ∧
      (addProfile "d" demoProfileData demoStore).1.id ≠ "" ∧
      ∀ p ∈ demoStore, p.id ≠ (addProfile "d" demoProfileData demoStore).1.id) :=
  ⟨by decide, by decide,
    addProfile_appends_fresh_record demoStore demoProfileData "d" (by decide)
      (by decide)⟩

/-- C10: when some stored record's id matches, `updateProfile` succeeds
and overwrites exactly the first matching slot, preserving the length,
every other record and their order. -/
theorem updateProfile_replaces_matching (profiles : List ConnectionProfile)
    (updatedProfile : ConnectionProfile)
    (h : ∃ p ∈ profiles, p.id = updatedProfile.id) :
    ∃ i, findIndexById updatedProfile.id profiles = some i ∧
      updateProfile updatedProfile profiles =
        (true, profiles.set i updatedProfile) ∧
      (∃ p0, profiles[i]? = some p0 ∧ p0.id = updatedProfile.id) ∧
      (profiles.set i updatedProfile).length = profiles.length ∧
      (profiles.set i updatedProfile)[i]? = some updatedProfile ∧
      ∀ j, j ≠ i → (profiles.set i updatedProfile)[j]? = profiles[j]? := by
  rcases findIndexById_eq_some h with ⟨i, hfind, hlt, p0, hget, hid⟩
  refine ⟨i, hfind, by simp [updateProfile, hfind], ⟨p0, hget, hid⟩,
    List.length_set .., ?_, ?_⟩
  · rw [List.getElem?_set_self]
    omega
  · intro j hj
    exact List.getElem?_set_ne (fun hij => hj hij.symm)

/-- Witness for C10: replacing `demoProfileB` (id `"b"`) in `demoStore`. -/
theorem updateProfile_replaces_matching_witness :
    (∃ p ∈ demoStore, p.id = demoProfileB'.id) ∧
    ∃ i, findIndexById demoProfileB'.id demoStore = some i ∧
      updateProfile demoProfileB' demoStore =
        (true, demoStore.set i demoProfileB') ∧
      (∃ p0, demoStore[i]? = some p0 ∧ p0.id = demoProfileB'.id) ∧
      (demoStore.set i demoProfileB').length = demoStore.length ∧
      (demoStore.set i demoProfileB')[i]? = some demoProfileB' ∧
      ∀ j, j ≠ i → (demoStore.set i demoProfileB')[j]? = demoStore[j]? :=
  ⟨by decide, updateProfile_replaces_matching demoStore demoProfileB' (by decide)⟩

/-! ### Claims about error propagation and `connect` -/

/-- Counterexample to C9: a failing `localStorage.setItem` inside
`saveProfiles` is caught and only logged — the caller sees a normal
return, not a structured failure. -/
theorem saveProfiles_swallows_write_failure :
    (saveProfiles StoreWriteOutcome.throws demoStore).callerError = none ∧
    (saveProfiles StoreWriteOutcome.throws demoStore).logged ≠ [] := by
  decide

/-- C9 as amended: failures of the profile store never reach the caller
of `saveProfiles` — a write failure is swallowed (logged, nothing
stored, normal return), a successful write stores the collection, and
storage read failures degrade `getProfiles` to the empty collection. -/
theorem storage_failures_swallowed_or_degraded (profiles : List ConnectionProfile) :
    (saveProfiles StoreWriteOutcome.throws profiles).callerError = none ∧
    (saveProfiles StoreWriteOutcome.throws profiles).stored = none ∧
    (saveProfiles StoreWriteOutcome.throws profiles).logged ≠ [] ∧
    (saveProfiles StoreWriteOutcome.ok profiles).callerError = none ∧
    (saveProfiles StoreWriteOutcome.ok profiles).stored = some profiles ∧
    getProfiles RawStored.corrupt = [] ∧
    getProfiles RawStored.missing = [] ∧
    getProfiles RawStored.notArray = [] := by
  refine ⟨rfl, rfl, ?_, rfl, rfl, rfl, rfl, rfl⟩
  simp [saveProfiles]

/-- Connection parameters with an empty host, as in the C2 scenario. -/
def emptyHostParams : SSHConnectionParams :=
  { host := "", port := 22, username := "u", password := some "pw"
    privateKey := none, passphrase := none }

/-- A stand-in for `Buffer.from` on UTF-8 strings, for the `connect`
counterexample (no private key is present, so it is never applied). -/
def demoUtf8Bytes : String → List Byte := fun _ => []

/-- Counterexample to C2: `connect` with an empty host does not fail
with a validation error — its first observable action is the
`conn.connect(config)` call, i.e. it initiates network I/O with the
invalid parameters passed through verbatim. -/
theorem connect_empty_host_attempts_io :
    connect demoUtf8Bytes emptyHostParams =
      ConnectAction.attemptConnect
        { host := "", port := 22, username := "u", password := some "pw"
          privateKey := none, passphrase := none } ∧
    ¬∃ message, connect demoUtf8Bytes emptyHostParams =
      ConnectAction.failValidation message :=
  ⟨rfl, fun ⟨_, hmsg⟩ => by simp [connect] at hmsg⟩

/-- C2 as amended: `connect` validates nothing — for every parameter
record, empty host included, it builds the ssh2 config from the params
verbatim and initiates the connection attempt; no path produces a
validation failure before I/O. -/
theorem connect_never_validates (utf8Bytes : String → List Byte)
    (params : SSHConnectionParams) :
    connect utf8Bytes params =
      ConnectAction.attemptConnect
        { host := params.host, port := params.port, username := params.username
          password := params.password
          privateKey := params.privateKey.map utf8Bytes
          passphrase := params.passphrase } :=
  rfl

end SshClient
